import Mathlib

/-!
Shallow embedding of the client-side dashboard store of the csv-viewer
repository (`frontend/src/state/useDashboardStore.ts`) together with the
chart-type switch handler of `frontend/src/components/Charts/ChartPanel.tsx`.

Remote calls (the "Gateway", `services/csvService.ts`) are modelled as
oracles: every operation that awaits a Gateway response takes the response
as an explicit `Except String _` argument, and the list of Gateway calls the
operation issues is returned alongside the new state.  `refreshPreview` is
additionally split into its synchronous issue phase (`refreshPreviewStart`)
and its completion phase (`refreshPreviewComplete`) so that event-loop
interleavings of in-flight requests can be expressed; the atomic
`refreshPreviewWith` is their composition.
-/

namespace CsvViewer

/-- `charsStartWith s pat`: the character list `pat` starts the list `s`. -/
def charsStartWith : List Char → List Char → Bool
  | _, [] => true
  | [], _ :: _ => false
  | c :: cs, d :: ds => c = d && charsStartWith cs ds

/-- `charsContain s pat`: `pat` occurs as a contiguous run inside `s`. -/
def charsContain : List Char → List Char → Bool
  | [], pat => pat.isEmpty
  | c :: rest, pat => charsStartWith (c :: rest) pat || charsContain rest pat

/-- Embedding of JavaScript `String.prototype.includes`. -/
def strContains (s pat : String) : Bool :=
  charsContain s.data pat.data

/-- Embedding of JavaScript `String.prototype.toUpperCase` (ASCII). -/
def strUpper (s : String) : String :=
  String.mk (s.data.map Char.toUpper)

/-- `types/api.ts` : `CsvFileInfo`. -/
structure CsvFileInfo where
  name : String
  path : String
  size_bytes : Nat
  modified_at : String
deriving DecidableEq

/-- `types/api.ts` : `ColumnSchema`. -/
structure ColumnSchema where
  name : String
  dtype : String
  nullable : Bool
deriving DecidableEq

/-- Row records are opaque to the store; modelled as association lists. -/
abbrev Row := List (String × String)

/-- `useDashboardStore.ts` : `SortSpec` (direction kept as its literal tag). -/
structure SortSpec where
  column : String
  direction : String
deriving DecidableEq

/-- `useDashboardStore.ts` : `FilterSpec`. -/
structure FilterSpec where
  column : String
  operator : String
  value : Option String
deriving DecidableEq

/-- `useDashboardStore.ts` : `PreviewState`.  `page` is an `Int` because the
TypeScript field is an unconstrained `number`. -/
structure PreviewState where
  rows : List Row
  columns : List String
  totalRows : Nat
  page : Int
  pageSize : Nat
  sort : List SortSpec
  filters : List FilterSpec
  isLoading : Bool
  error : Option String
deriving DecidableEq

/-- `types/api.ts` : `PreviewResponse`. -/
structure PreviewResult where
  rows : List Row
  columns : List String
  total_rows : Nat
deriving DecidableEq

/-- `types/api.ts` : `SummaryResponse` (the per-column records are opaque). -/
structure SummaryResult where
  summaries : List Row
deriving DecidableEq

/-- `useDashboardStore.ts` : `SummaryState`. -/
structure SummaryState where
  data : List Row
  isLoading : Bool
  error : Option String
deriving DecidableEq

/-- `useDashboardStore.ts` : `ChartType`. -/
inductive ChartType where
  | line
  | bar
  | scatter
deriving DecidableEq

/-- `useDashboardStore.ts` : `ChartOptions`. -/
structure ChartOptions where
  chart_type : ChartType
  time_column : Option String
  value_columns : List String
  time_bucket : String
  interpolation : String
deriving DecidableEq

/-- `types/api.ts` : `ChartDataResponse` rows/columns. -/
structure ChartResult where
  rows : List Row
  columns : List String
deriving DecidableEq

/-- `useDashboardStore.ts` : `ChartState`. -/
structure ChartState where
  data : List Row
  columns : List String
  options : ChartOptions
  isLoading : Bool
  error : Option String
deriving DecidableEq

/-- The whole Zustand store state of `useDashboardStore.ts`. -/
structure DashboardState where
  files : List CsvFileInfo
  recentFiles : List String
  selectedPath : Option String
  schema : List ColumnSchema
  filesLoading : Bool
  filesError : Option String
  preview : PreviewState
  summary : SummaryState
  chart : ChartState
deriving DecidableEq

/-- `types/api.ts` : `PreviewRequest`, the payload built by `refreshPreview`. -/
structure PreviewRequest where
  path : String
  limit : Nat
  offset : Int
  order_by : List SortSpec
  filters : List FilterSpec
deriving DecidableEq

/-- `types/api.ts` : `ChartDataRequest`, the payload built by `refreshChart`. -/
structure ChartDataRequest where
  path : String
  chart_type : ChartType
  time_column : Option String
  value_columns : List String
  time_bucket : String
  interpolation : String
deriving DecidableEq

/-- One Gateway call (`services/csvService.ts` functions). -/
inductive GatewayCall where
  | listFiles
  | getSchema (path : String)
  | getPreview (req : PreviewRequest)
  | getSummary (path : String)
  | getChartData (req : ChartDataRequest)
deriving DecidableEq

/-- `initialPreviewState` (with `env.defaultPageSize = 200`, `config/env.ts`). -/
def initialPreviewState : PreviewState :=
  { rows := []
    columns := []
    totalRows := 0
    page := 1
    pageSize := 200
    sort := []
    filters := []
    isLoading := false
    error := none }

/-- `initialSummaryState`. -/
def initialSummaryState : SummaryState :=
  { data := [], isLoading := false, error := none }

/-- `initialChartState`. -/
def initialChartState : ChartState :=
  { data := []
    columns := []
    options :=
      { chart_type := ChartType.line
        time_column := none
        value_columns := []
        time_bucket := "5 minutes"
        interpolation := "none" }
    isLoading := false
    error := none }

/-- The store's initial state (the object literal passed to `create`). -/
def initialState : DashboardState :=
  { files := []
    recentFiles := []
    selectedPath := none
    schema := []
    filesLoading := false
    filesError := none
    preview := initialPreviewState
    summary := initialSummaryState
    chart := initialChartState }

/-- A `Partial<ChartOptions>`: each field optionally overridden. -/
structure ChartOptionsPatch where
  chart_type : Option ChartType
  time_column : Option (Option String)
  value_columns : Option (List String)
  time_bucket : Option String
  interpolation : Option String
deriving DecidableEq

/-- JavaScript object spread `{ ...o, ...p }` on chart options. -/
def applyPatch (o : ChartOptions) (p : ChartOptionsPatch) : ChartOptions :=
  { chart_type := p.chart_type.getD o.chart_type
    time_column := p.time_column.getD o.time_column
    value_columns := p.value_columns.getD o.value_columns
    time_bucket := p.time_bucket.getD o.time_bucket
    interpolation := p.interpolation.getD o.interpolation }

/-- Numeric-capable dtype test used by `getDefaultChartOptions` and
`ChartPanel`: some tag in the list occurs in `dtype.toUpperCase()`. -/
def isNumericDtype (dtype : String) : Bool :=
  ["BIGINT", "DOUBLE", "FLOAT", "INTEGER", "REAL"].any
    (fun t => strContains (strUpper dtype) t)

/-- `useDashboardStore.ts` : `getDefaultChartOptions`. -/
def getDefaultChartOptions (schema : List ColumnSchema) : ChartOptionsPatch :=
  if schema = [] then
    { chart_type := none, time_column := none, value_columns := none
      time_bucket := none, interpolation := none }
  else
    let timeColumn := schema.find? (fun c => strContains c.dtype "TIMESTAMP")
    let valueColumn := schema.find? (fun c => isNumericDtype c.dtype)
    { chart_type := none
      time_column := some (timeColumn.map (fun c => c.name))
      value_columns := some (match valueColumn with
        | some c => [c.name]
        | none => [])
      time_bucket := none
      interpolation := none }

/-- `updateRecent` (local function inside `selectFile`): drop existing
occurrences of `path`, prepend it, keep the first 5 entries. -/
def updateRecent (path : String) (prev : List String) : List String :=
  (path :: prev.filter (fun item => item ≠ path)).take 5

/-- Synchronous issue phase of `refreshPreview`: the guard, the loading
flag, the request payload built from the issue-time snapshot, and the
snapshot itself (the closed-over `preview` binding). -/
def refreshPreviewStart (st : DashboardState) :
    Option (DashboardState × PreviewRequest × PreviewState) :=
  match st.selectedPath with
  | none => none
  | some path =>
    let p := st.preview
    some
      ({ st with preview := { p with isLoading := true, error := none } },
       { path := path
         limit := p.pageSize
         offset := (p.page - 1) * (p.pageSize : Int)
         order_by := p.sort
         filters := p.filters },
       p)

/-- Completion phase of `refreshPreview`: the store-write executed when the
Gateway promise settles.  It spreads the issue-time snapshot `snap`, so it
runs against whatever the current state `st` is at settlement time. -/
def refreshPreviewComplete (snap : PreviewState)
    (res : Except String PreviewResult) (st : DashboardState) :
    DashboardState :=
  match res with
  | Except.ok r =>
    { st with preview :=
        { snap with rows := r.rows, columns := r.columns,
                    totalRows := r.total_rows, isLoading := false,
                    error := none } }
  | Except.error e =>
    { st with preview :=
        { snap with rows := [], columns := [], totalRows := 0,
                    isLoading := false, error := some e } }

/-- `refreshPreview` run to completion with no interleaved operation. -/
def refreshPreviewWith (res : Except String PreviewResult)
    (st : DashboardState) : DashboardState × List GatewayCall :=
  match refreshPreviewStart st with
  | none => (st, [])
  | some (st1, req, snap) =>
    (refreshPreviewComplete snap res st1, [GatewayCall.getPreview req])

/-- `setPage`. -/
def setPage (page : Int) (res : Except String PreviewResult)
    (st : DashboardState) : DashboardState × List GatewayCall :=
  refreshPreviewWith res { st with preview := { st.preview with page := page } }

/-- `setPageSize`. -/
def setPageSize (pageSize : Nat) (res : Except String PreviewResult)
    (st : DashboardState) : DashboardState × List GatewayCall :=
  refreshPreviewWith res
    { st with preview := { st.preview with pageSize := pageSize, page := 1 } }

/-- `updateSort`. -/
def updateSort (sort : List SortSpec) (res : Except String PreviewResult)
    (st : DashboardState) : DashboardState × List GatewayCall :=
  refreshPreviewWith res
    { st with preview := { st.preview with sort := sort, page := 1 } }

/-- `updateFilters`. -/
def updateFilters (filters : List FilterSpec)
    (res : Except String PreviewResult) (st : DashboardState) :
    DashboardState × List GatewayCall :=
  refreshPreviewWith res
    { st with preview := { st.preview with filters := filters, page := 1 } }

/-- `refreshSummary`. -/
def refreshSummaryWith (res : Except String SummaryResult)
    (st : DashboardState) : DashboardState × List GatewayCall :=
  match st.selectedPath with
  | none => (st, [])
  | some path =>
    if st.schema = [] then (st, [])
    else
      match res with
      | Except.ok r =>
        ({ st with summary := { data := r.summaries, isLoading := false,
                                error := none } },
         [GatewayCall.getSummary path])
      | Except.error e =>
        ({ st with summary := { data := [], isLoading := false,
                                error := some e } },
         [GatewayCall.getSummary path])

/-- `refreshChart`. -/
def refreshChartWith (res : Except String ChartResult)
    (st : DashboardState) : DashboardState × List GatewayCall :=
  match st.selectedPath with
  | none => (st, [])
  | some path =>
    let chart := st.chart
    let opts := chart.options
    if opts.value_columns = [] then (st, [])
    else if (opts.chart_type = ChartType.line ∨
             opts.chart_type = ChartType.bar) ∧ opts.time_column = none then
      ({ st with chart := { st.chart with
                            isLoading := false,
                            error := some "Time column not selected." } },
       [])
    else
      let req : ChartDataRequest :=
        { path := path
          chart_type := opts.chart_type
          time_column := opts.time_column
          value_columns := opts.value_columns
          time_bucket := opts.time_bucket
          interpolation := opts.interpolation }
      match res with
      | Except.ok r =>
        ({ st with chart := { chart with
                              data := r.rows, columns := r.columns,
                              isLoading := false } },
         [GatewayCall.getChartData req])
      | Except.error e =>
        ({ st with chart := { chart with
                              data := [], columns := [],
                              isLoading := false, error := some e } },
         [GatewayCall.getChartData req])

/-- `selectFile` (schema fetch plus the three fan-out refreshes; the three
refreshes touch disjoint state fields, so their sequential composition has
the same final state as the `Promise.all` interleaving). -/
def selectFile (path : String)
    (schemaRes : Except String (List ColumnSchema))
    (previewRes : Except String PreviewResult)
    (summaryRes : Except String SummaryResult)
    (chartRes : Except String ChartResult)
    (st : DashboardState) : DashboardState × List GatewayCall :=
  if st.selectedPath = some path then (st, [])
  else
    let st1 : DashboardState :=
      { st with selectedPath := some path,
                schema := [],
                preview := { initialPreviewState with isLoading := true },
                summary := { initialSummaryState with isLoading := true },
                chart := { initialChartState with isLoading := true } }
    let st2 : DashboardState :=
      { st1 with recentFiles := updateRecent path st1.recentFiles }
    match schemaRes with
    | Except.error msg =>
      ({ st2 with schema := [],
                  preview := { initialPreviewState with
                               isLoading := false,
                               error := some msg },
                  summary := { initialSummaryState with
                               isLoading := false,
                               error := some msg },
                  chart := { initialChartState with
                             isLoading := false,
                             error := some msg } },
       [GatewayCall.getSchema path])
    | Except.ok schema =>
      let st3 : DashboardState :=
        { st2 with schema := schema,
                   chart := { st2.chart with
                              options := applyPatch initialChartState.options
                                (getDefaultChartOptions schema) } }
      let r1 := refreshPreviewWith previewRes st3
      let r2 := refreshSummaryWith summaryRes r1.1
      let r3 := refreshChartWith chartRes r2.1
      (r3.1, GatewayCall.getSchema path :: (r1.2 ++ r2.2 ++ r3.2))

/-- `init`. -/
def init (filesRes : Except String (List CsvFileInfo))
    (schemaRes : Except String (List ColumnSchema))
    (previewRes : Except String PreviewResult)
    (summaryRes : Except String SummaryResult)
    (chartRes : Except String ChartResult)
    (st : DashboardState) : DashboardState × List GatewayCall :=
  let st0 : DashboardState := { st with filesLoading := true, filesError := none }
  match filesRes with
  | Except.error msg =>
    ({ st0 with filesLoading := false, filesError := some msg },
     [GatewayCall.listFiles])
  | Except.ok files =>
    let st1 : DashboardState := { st0 with files := files, filesLoading := false }
    match files with
    | [] => (st1, [GatewayCall.listFiles])
    | f :: _ =>
      let r := selectFile f.path schemaRes previewRes summaryRes chartRes st1
      (r.1, GatewayCall.listFiles :: r.2)

/-- `setChartOptions`: shallow-merge the patch, then `refreshChart`. -/
def setChartOptions (p : ChartOptionsPatch) (res : Except String ChartResult)
    (st : DashboardState) : DashboardState × List GatewayCall :=
  refreshChartWith res
    { st with chart := { st.chart with options := applyPatch st.chart.options p } }

/-- Helper for `dedupFirst`: keep the first occurrence of each element. -/
def dedupAux : List String → List String → List String
  | [], _ => []
  | x :: xs, seen =>
    if x ∈ seen then dedupAux xs seen else x :: dedupAux xs (x :: seen)

/-- Embedding of `Array.from(new Set(l))`: deduplication that keeps the
first occurrence of each element, preserving order. -/
def dedupFirst (l : List String) : List String :=
  dedupAux l []

/-- `ChartPanel.tsx` : `numericColumns.map((col) => col.name)`. -/
def numericColumnNames (schema : List ColumnSchema) : List String :=
  (schema.filter (fun c => isNumericDtype c.dtype)).map (fun c => c.name)

/-- `ChartPanel.tsx` : `timeColumns`. -/
def timeColumns (schema : List ColumnSchema) : List ColumnSchema :=
  schema.filter (fun c => strContains c.dtype "TIMESTAMP")

/-- `ChartPanel.tsx` : `handleChartTypeChange`, at the chart-options level:
the new options produced by the handler's `setChartOptions` merge. -/
def handleChartTypeChange (nextType : ChartType) (schema : List ColumnSchema)
    (opts : ChartOptions) : ChartOptions :=
  if nextType = opts.chart_type then opts
  else if nextType = ChartType.scatter then
    let ns := numericColumnNames schema
    let candidateColumns := opts.value_columns.filter (fun col => ns.contains col) ++ ns
    let scatterValueColumns := (dedupFirst candidateColumns).take 2
    { opts with chart_type := nextType, time_column := none,
                value_columns := scatterValueColumns }
  else
    let ns := numericColumnNames schema
    let tcs := timeColumns schema
    let defaultTimeColumn :=
      if tcs ≠ [] then
        match opts.time_column with
        | some t => some t
        | none => tcs.head?.map (fun c => c.name)
      else none
    let defaultValueColumn :=
      match opts.value_columns.head? with
      | some v => some v
      | none => ns.head?
    let nextValueColumns :=
      match defaultValueColumn with
      | some v => [v]
      | none => []
    { opts with chart_type := nextType, time_column := defaultTimeColumn,
                value_columns := nextValueColumns }

/-- All store states reachable from the initial state through the exposed
operations, with arbitrary Gateway responses. -/
inductive Reachable : DashboardState → Prop where
  | start : Reachable initialState
  | opInit : ∀ st fr sr pr mr cr, Reachable st →
      Reachable (init fr sr pr mr cr st).1
  | opSelectFile : ∀ st p sr pr mr cr, Reachable st →
      Reachable (selectFile p sr pr mr cr st).1
  | opRefreshPreview : ∀ st r, Reachable st →
      Reachable (refreshPreviewWith r st).1
  | opSetPage : ∀ st p r, Reachable st → Reachable (setPage p r st).1
  | opSetPageSize : ∀ st n r, Reachable st → Reachable (setPageSize n r st).1
  | opUpdateSort : ∀ st s r, Reachable st → Reachable (updateSort s r st).1
  | opUpdateFilters : ∀ st f r, Reachable st →
      Reachable (updateFilters f r st).1
  | opRefreshSummary : ∀ st r, Reachable st →
      Reachable (refreshSummaryWith r st).1
  | opRefreshChart : ∀ st r, Reachable st →
      Reachable (refreshChartWith r st).1
  | opSetChartOptions : ∀ st p r, Reachable st →
      Reachable (setChartOptions p r st).1

/-! ### Concrete scenario fixtures -/

/-- A one-column numeric schema used by the concrete scenarios. -/
def schemaV : List ColumnSchema := [⟨"v", "DOUBLE", true⟩]

/-- One user selection (schema resolves to `schemaV`, the three session
fetches fail) used by the recent-files scenarios. -/
def selectStep (s : DashboardState) (p : String) : DashboardState :=
  (selectFile p (Except.ok schemaV) (Except.error "e") (Except.error "e")
    (Except.error "e") s).1

/-- Schema of the scatter-switch example: only `a` and `b` are numeric. -/
def schemaEx : List ColumnSchema :=
  [⟨"a", "DOUBLE", false⟩, ⟨"b", "INTEGER", false⟩, ⟨"c", "VARCHAR", false⟩]

/-- Options of the scatter-switch example: `value_columns = [a, b, c]`. -/
def optsEx : ChartOptions :=
  { chart_type := ChartType.line
    time_column := some "t"
    value_columns := ["a", "b", "c"]
    time_bucket := "5 minutes"
    interpolation := "none" }

/-- A state with a dataset selected and otherwise-initial sessions. -/
def stSel : DashboardState :=
  { initialState with selectedPath := some "d.csv" }

/-- Result of the earlier preview request R1. -/
def resA : PreviewResult := { rows := [], columns := ["x"], total_rows := 50 }

/-- Result of the later preview request R2. -/
def resB : PreviewResult := { rows := [], columns := ["x"], total_rows := 100 }

/-- Out-of-order resolution trace: from `stSel` (page 1) issue preview
refresh R1; a page change to 2 issues R2; R2 resolves first with `resB`,
then R1 resolves with `resA`.  First component: the state after R2's
resolution; second component: the final state after R1's late resolution. -/
def c1trace : DashboardState × DashboardState :=
  match refreshPreviewStart stSel with
  | none => (stSel, stSel)
  | some (st1, _, snap1) =>
    let st2 := { st1 with preview := { st1.preview with page := 2 } }
    match refreshPreviewStart st2 with
    | none => (st2, st2)
    | some (st3, _, snap2) =>
      let afterB := refreshPreviewComplete snap2 (Except.ok resB) st3
      (afterB, refreshPreviewComplete snap1 (Except.ok resA) afterB)

/-- A selected state whose chart options are the defaults: `line`,
`time_column = null`, `value_columns = []`. -/
def stNoValueCols : DashboardState :=
  { initialState with selectedPath := some "n.csv" }

/-- A selected state with a nonempty `value_columns`, chart type `line`,
and `time_column = null`. -/
def stTimeNull : DashboardState :=
  { initialState with
    selectedPath := some "t.csv",
    chart := { initialChartState with options :=
      { initialChartState.options with value_columns := ["v"] } } }

/-- Catalog entries of the init scenario. -/
def fileA : CsvFileInfo := ⟨"a", "a.csv", 1, "2024-01-01"⟩

/-- Second catalog entry of the init scenario. -/
def fileB : CsvFileInfo := ⟨"b", "b.csv", 2, "2024-01-02"⟩

/-- A state in which `b.csv` (not first in the catalog) is selected. -/
def stSelectedB : DashboardState :=
  { initialState with selectedPath := some "b.csv" }

/-- A state in which `x.csv` is selected. -/
def stSelectedX : DashboardState :=
  { initialState with selectedPath := some "x.csv" }

/-! ### Frame lemmas -/

theorem refreshPreviewWith_recentFiles (res : Except String PreviewResult)
    (st : DashboardState) :
    (refreshPreviewWith res st).1.recentFiles = st.recentFiles := by
  obtain ⟨f, rc, sel, sc, fl, fe, pv, sm, ch⟩ := st
  unfold refreshPreviewWith refreshPreviewStart
  cases sel <;> cases res <;> rfl

theorem refreshPreviewWith_selectedPath (res : Except String PreviewResult)
    (st : DashboardState) :
    (refreshPreviewWith res st).1.selectedPath = st.selectedPath := by
  obtain ⟨f, rc, sel, sc, fl, fe, pv, sm, ch⟩ := st
  unfold refreshPreviewWith refreshPreviewStart
  cases sel <;> cases res <;> rfl

theorem refreshPreviewWith_page (res : Except String PreviewResult)
    (st : DashboardState) :
    (refreshPreviewWith res st).1.preview.page = st.preview.page := by
  obtain ⟨f, rc, sel, sc, fl, fe, pv, sm, ch⟩ := st
  unfold refreshPreviewWith refreshPreviewStart
  cases sel <;> cases res <;> rfl

theorem refreshSummaryWith_recentFiles (res : Except String SummaryResult)
    (st : DashboardState) :
    (refreshSummaryWith res st).1.recentFiles = st.recentFiles := by
  obtain ⟨f, rc, sel, sc, fl, fe, pv, sm, ch⟩ := st
  unfold refreshSummaryWith
  cases sel with
  | none => rfl
  | some p =>
    by_cases h : sc = [] <;> cases res <;> simp [h]

theorem refreshSummaryWith_selectedPath (res : Except String SummaryResult)
    (st : DashboardState) :
    (refreshSummaryWith res st).1.selectedPath = st.selectedPath := by
  obtain ⟨f, rc, sel, sc, fl, fe, pv, sm, ch⟩ := st
  unfold refreshSummaryWith
  cases sel with
  | none => rfl
  | some p =>
    by_cases h : sc = [] <;> cases res <;> simp [h]

theorem refreshSummaryWith_preview (res : Except String SummaryResult)
    (st : DashboardState) :
    (refreshSummaryWith res st).1.preview = st.preview := by
  obtain ⟨f, rc, sel, sc, fl, fe, pv, sm, ch⟩ := st
  unfold refreshSummaryWith
  cases sel with
  | none => rfl
  | some p =>
    by_cases h : sc = [] <;> cases res <;> simp [h]

theorem refreshChartWith_recentFiles (res : Except String ChartResult)
    (st : DashboardState) :
    (refreshChartWith res st).1.recentFiles = st.recentFiles := by
  obtain ⟨f, rc, sel, sc, fl, fe, pv, sm, ch⟩ := st
  unfold refreshChartWith
  cases sel with
  | none => rfl
  | some p =>
    by_cases h1 : ch.options.value_columns = [] <;>
      by_cases h2 : (ch.options.chart_type = ChartType.line ∨
          ch.options.chart_type = ChartType.bar) ∧
          ch.options.time_column = none <;>
      cases res <;> simp [h1, h2]

theorem refreshChartWith_selectedPath (res : Except String ChartResult)
    (st : DashboardState) :
    (refreshChartWith res st).1.selectedPath = st.selectedPath := by
  obtain ⟨f, rc, sel, sc, fl, fe, pv, sm, ch⟩ := st
  unfold refreshChartWith
  cases sel with
  | none => rfl
  | some p =>
    by_cases h1 : ch.options.value_columns = [] <;>
      by_cases h2 : (ch.options.chart_type = ChartType.line ∨
          ch.options.chart_type = ChartType.bar) ∧
          ch.options.time_column = none <;>
      cases res <;> simp [h1, h2]

theorem refreshChartWith_preview (res : Except String ChartResult)
    (st : DashboardState) :
    (refreshChartWith res st).1.preview = st.preview := by
  obtain ⟨f, rc, sel, sc, fl, fe, pv, sm, ch⟩ := st
  unfold refreshChartWith
  cases sel with
  | none => rfl
  | some p =>
    by_cases h1 : ch.options.value_columns = [] <;>
      by_cases h2 : (ch.options.chart_type = ChartType.line ∨
          ch.options.chart_type = ChartType.bar) ∧
          ch.options.time_column = none <;>
      cases res <;> simp [h1, h2]

theorem selectFile_selectedPath (p : String)
    (sr : Except String (List ColumnSchema))
    (pr : Except String PreviewResult) (mr : Except String SummaryResult)
    (cr : Except String ChartResult) (st : DashboardState) :
    (selectFile p sr pr mr cr st).1.selectedPath = some p := by
  unfold selectFile
  by_cases h : st.selectedPath = some p
  · simp only [h, ite_true]
  · simp only [h, ite_false]
    cases sr with
    | error msg => rfl
    | ok schema =>
      rw [refreshChartWith_selectedPath, refreshSummaryWith_selectedPath,
        refreshPreviewWith_selectedPath]

theorem selectFile_recentFiles (p : String)
    (sr : Except String (List ColumnSchema))
    (pr : Except String PreviewResult) (mr : Except String SummaryResult)
    (cr : Except String ChartResult) (st : DashboardState) :
    (selectFile p sr pr mr cr st).1.recentFiles = st.recentFiles ∨
    (selectFile p sr pr mr cr st).1.recentFiles =
      updateRecent p st.recentFiles := by
  unfold selectFile
  by_cases h : st.selectedPath = some p
  · simp only [h, ite_true]
    exact Or.inl trivial
  · simp only [h, ite_false]
    cases sr with
    | error msg => exact Or.inr rfl
    | ok schema =>
      refine Or.inr ?_
      rw [refreshChartWith_recentFiles, refreshSummaryWith_recentFiles,
        refreshPreviewWith_recentFiles]

theorem refreshPreviewWith_files (res : Except String PreviewResult)
    (st : DashboardState) :
    (refreshPreviewWith res st).1.files = st.files := by
  obtain ⟨f, rc, sel, sc, fl, fe, pv, sm, ch⟩ := st
  unfold refreshPreviewWith refreshPreviewStart
  cases sel <;> cases res <;> rfl

theorem refreshSummaryWith_files (res : Except String SummaryResult)
    (st : DashboardState) :
    (refreshSummaryWith res st).1.files = st.files := by
  obtain ⟨f, rc, sel, sc, fl, fe, pv, sm, ch⟩ := st
  unfold refreshSummaryWith
  cases sel with
  | none => rfl
  | some p =>
    by_cases h : sc = [] <;> cases res <;> simp [h]

theorem refreshChartWith_files (res : Except String ChartResult)
    (st : DashboardState) :
    (refreshChartWith res st).1.files = st.files := by
  obtain ⟨f, rc, sel, sc, fl, fe, pv, sm, ch⟩ := st
  unfold refreshChartWith
  cases sel with
  | none => rfl
  | some p =>
    by_cases h1 : ch.options.value_columns = [] <;>
      by_cases h2 : (ch.options.chart_type = ChartType.line ∨
          ch.options.chart_type = ChartType.bar) ∧
          ch.options.time_column = none <;>
      cases res <;> simp [h1, h2]

theorem selectFile_files (p : String)
    (sr : Except String (List ColumnSchema))
    (pr : Except String PreviewResult) (mr : Except String SummaryResult)
    (cr : Except String ChartResult) (st : DashboardState) :
    (selectFile p sr pr mr cr st).1.files = st.files := by
  unfold selectFile
  by_cases h : st.selectedPath = some p
  · simp only [h, ite_true]
  · simp only [h, ite_false]
    cases sr with
    | error msg => rfl
    | ok schema =>
      rw [refreshChartWith_files, refreshSummaryWith_files,
        refreshPreviewWith_files]

theorem selectFile_noop (p : String)
    (sr : Except String (List ColumnSchema))
    (pr : Except String PreviewResult) (mr : Except String SummaryResult)
    (cr : Except String ChartResult) (st : DashboardState)
    (h : st.selectedPath = some p) :
    selectFile p sr pr mr cr st = (st, []) := by
  unfold selectFile
  simp [h]

theorem selectFile_recentFiles_of_ne (p : String)
    (sr : Except String (List ColumnSchema))
    (pr : Except String PreviewResult) (mr : Except String SummaryResult)
    (cr : Except String ChartResult) (st : DashboardState)
    (h : st.selectedPath ≠ some p) :
    (selectFile p sr pr mr cr st).1.recentFiles =
      updateRecent p st.recentFiles := by
  unfold selectFile
  simp only [h, ite_false]
  cases sr with
  | error msg => rfl
  | ok schema =>
    rw [refreshChartWith_recentFiles, refreshSummaryWith_recentFiles,
      refreshPreviewWith_recentFiles]

theorem selectFile_page_of_ne (p : String)
    (sr : Except String (List ColumnSchema))
    (pr : Except String PreviewResult) (mr : Except String SummaryResult)
    (cr : Except String ChartResult) (st : DashboardState)
    (h : st.selectedPath ≠ some p) :
    (selectFile p sr pr mr cr st).1.preview.page = 1 := by
  unfold selectFile
  simp only [h, ite_false]
  cases sr with
  | error msg => rfl
  | ok schema =>
    rw [refreshChartWith_preview, refreshSummaryWith_preview,
      refreshPreviewWith_page]
    rfl

theorem init_recentFiles (fr : Except String (List CsvFileInfo))
    (sr : Except String (List ColumnSchema))
    (pr : Except String PreviewResult) (mr : Except String SummaryResult)
    (cr : Except String ChartResult) (st : DashboardState) :
    (init fr sr pr mr cr st).1.recentFiles = st.recentFiles ∨
    ∃ p, (init fr sr pr mr cr st).1.recentFiles =
      updateRecent p st.recentFiles := by
  unfold init
  cases fr with
  | error msg => exact Or.inl rfl
  | ok files =>
    cases files with
    | nil => exact Or.inl rfl
    | cons fi rest =>
      rcases selectFile_recentFiles fi.path sr pr mr cr
          { st with files := fi :: rest, filesLoading := false,
                    filesError := none } with h | h
      · exact Or.inl h
      · exact Or.inr ⟨fi.path, h⟩

/-! ### List lemmas for the recent-files list and the scatter switch -/

theorem updateRecent_length_le (p : String) (l : List String) :
    (updateRecent p l).length ≤ 5 := by
  unfold updateRecent
  rw [List.length_take]
  exact min_le_left _ _

theorem updateRecent_nodup (p : String) (l : List String) (h : l.Nodup) :
    (updateRecent p l).Nodup := by
  unfold updateRecent
  refine List.Nodup.sublist (List.take_sublist _ _) ?_
  refine List.nodup_cons.mpr ⟨?_, h.filter _⟩
  intro hmem
  have := (List.mem_filter.mp hmem).2
  simp at this

theorem reachable_recent_invariant (st : DashboardState)
    (h : Reachable st) :
    st.recentFiles.length ≤ 5 ∧ st.recentFiles.Nodup := by
  induction h with
  | start => exact ⟨by simp [initialState], by simp [initialState]⟩
  | opInit st fr sr pr mr cr _ ih =>
    rcases init_recentFiles fr sr pr mr cr st with h | ⟨p, h⟩
    · rw [h]; exact ih
    · rw [h]; exact ⟨updateRecent_length_le p _, updateRecent_nodup p _ ih.2⟩
  | opSelectFile st p sr pr mr cr _ ih =>
    rcases selectFile_recentFiles p sr pr mr cr st with h | h
    · rw [h]; exact ih
    · rw [h]; exact ⟨updateRecent_length_le p _, updateRecent_nodup p _ ih.2⟩
  | opRefreshPreview st r _ ih => rw [refreshPreviewWith_recentFiles]; exact ih
  | opSetPage st p r _ ih =>
    unfold setPage
    rw [refreshPreviewWith_recentFiles]; exact ih
  | opSetPageSize st n r _ ih =>
    unfold setPageSize
    rw [refreshPreviewWith_recentFiles]; exact ih
  | opUpdateSort st s r _ ih =>
    unfold updateSort
    rw [refreshPreviewWith_recentFiles]; exact ih
  | opUpdateFilters st f r _ ih =>
    unfold updateFilters
    rw [refreshPreviewWith_recentFiles]; exact ih
  | opRefreshSummary st r _ ih =>
    rw [refreshSummaryWith_recentFiles]; exact ih
  | opRefreshChart st r _ ih => rw [refreshChartWith_recentFiles]; exact ih
  | opSetChartOptions st p r _ ih =>
    unfold setChartOptions
    rw [refreshChartWith_recentFiles]; exact ih

theorem mem_dedupAux (c : String) :
    ∀ (l seen : List String), c ∈ dedupAux l seen → c ∈ l := by
  intro l
  induction l with
  | nil => intro seen h; simp [dedupAux] at h
  | cons x xs ih =>
    intro seen h
    unfold dedupAux at h
    by_cases hx : x ∈ seen
    · simp only [hx, ite_true] at h
      exact List.mem_cons_of_mem _ (ih _ h)
    · simp only [hx, ite_false] at h
      rcases List.mem_cons.mp h with h | h
      · exact h ▸ List.mem_cons_self _ _
      · exact List.mem_cons_of_mem _ (ih _ h)

theorem mem_dedupFirst (c : String) (l : List String)
    (h : c ∈ dedupFirst l) : c ∈ l :=
  mem_dedupAux c l [] h

/-! ### Claim theorems -/

/-- C1 (code bug): the code has no supersession guard.  In the out-of-order
trace `c1trace` (R1 issued at page 1, page change to 2 issues R2, R2
resolves first with 100 total rows, then R1 resolves with 50), R2's result
is visible after R2 resolves (first component), but R1's late resolution
then overwrites it: the final preview carries R1's `total_rows = 50` and
R1's issue-time `page = 1`, not R2's result — contradicting the spec's
requirement that a stale result must be silently dropped. -/
theorem c1_stale_preview_result_overwrites :
    c1trace.1.preview.totalRows = 100 ∧ c1trace.1.preview.page = 2 ∧
    c1trace.2.preview.totalRows = 50 ∧ c1trace.2.preview.page = 1 ∧
    c1trace.2.preview.totalRows ≠ resB.total_rows ∧
    c1trace.2.preview.page ≠ c1trace.1.preview.page := by
  decide

/-- C2: a selection of a path not currently selected sets the recent-files
list to `updateRecent path recentFiles` (remove, prepend, truncate to 5);
`updateRecent` keeps the length at most 5 and preserves the absence of
duplicates; every reachable state has at most 5 entries and no duplicate
paths; and selecting A,B,C,D,E,F in order yields [F,E,D,C,B], after which
re-selecting B yields [B,F,E,D,C]. -/
theorem c2_recent_files (st : DashboardState) (p : String)
    (sr : Except String (List ColumnSchema))
    (pr : Except String PreviewResult) (mr : Except String SummaryResult)
    (cr : Except String ChartResult) :
    (st.selectedPath ≠ some p →
      (selectFile p sr pr mr cr st).1.recentFiles =
        updateRecent p st.recentFiles) ∧
    updateRecent p st.recentFiles =
      (p :: st.recentFiles.filter (fun item => item ≠ p)).take 5 ∧
    (updateRecent p st.recentFiles).length ≤ 5 ∧
    (st.recentFiles.Nodup → (updateRecent p st.recentFiles).Nodup) ∧
    (∀ s, Reachable s → s.recentFiles.length ≤ 5 ∧ s.recentFiles.Nodup) ∧
    (List.foldl selectStep initialState
      ["A", "B", "C", "D", "E", "F"]).recentFiles = ["F", "E", "D", "C", "B"] ∧
    (selectStep (List.foldl selectStep initialState
      ["A", "B", "C", "D", "E", "F"]) "B").recentFiles =
      ["B", "F", "E", "D", "C"] := by
  refine ⟨fun h => selectFile_recentFiles_of_ne p sr pr mr cr st h, rfl,
    updateRecent_length_le p _, updateRecent_nodup p _,
    fun s hs => reachable_recent_invariant s hs, by decide, by decide⟩

/-- C2 witness: the hypotheses instantiated at `stSelectedX` and the path
`r.csv`. -/
theorem c2_recent_files_witness :
    (selectFile "r.csv" (Except.error "e") (Except.error "e")
      (Except.error "e") (Except.error "e") stSelectedX).1.recentFiles =
      updateRecent "r.csv" stSelectedX.recentFiles ∧
    (updateRecent "r.csv" stSelectedX.recentFiles).Nodup := by
  have h := c2_recent_files stSelectedX "r.csv" (Except.error "e")
    (Except.error "e") (Except.error "e") (Except.error "e")
  exact ⟨h.1 (by decide), h.2.2.2.1 (by decide)⟩

/-- C3: when the schema fetch fails during a selection of a new path, the
identical error message lands in the preview, summary and chart error
fields, all three sessions end not loading, and the only Gateway call of
the whole selection is the schema fetch — no preview, summary or chart
fetch is issued. -/
theorem c3_schema_failure_fanout (st : DashboardState) (p msg : String)
    (pr : Except String PreviewResult) (mr : Except String SummaryResult)
    (cr : Except String ChartResult) (h : st.selectedPath ≠ some p) :
    (selectFile p (Except.error msg) pr mr cr st).1.preview.error =
      some msg ∧
    (selectFile p (Except.error msg) pr mr cr st).1.summary.error =
      some msg ∧
    (selectFile p (Except.error msg) pr mr cr st).1.chart.error = some msg ∧
    (selectFile p (Except.error msg) pr mr cr st).1.preview.isLoading =
      false ∧
    (selectFile p (Except.error msg) pr mr cr st).1.summary.isLoading =
      false ∧
    (selectFile p (Except.error msg) pr mr cr st).1.chart.isLoading =
      false ∧
    (selectFile p (Except.error msg) pr mr cr st).2 =
      [GatewayCall.getSchema p] := by
  unfold selectFile
  simp [h]

/-- C3 witness: schema failure on selecting `a.csv` from the initial
state. -/
theorem c3_schema_failure_fanout_witness :
    (selectFile "a.csv" (Except.error "boom") (Except.error "e")
      (Except.error "e") (Except.error "e") initialState).1.preview.error =
      some "boom" ∧
    (selectFile "a.csv" (Except.error "boom") (Except.error "e")
      (Except.error "e") (Except.error "e") initialState).2 =
      [GatewayCall.getSchema "a.csv"] := by
  have h := c3_schema_failure_fanout initialState "a.csv" "boom"
    (Except.error "e") (Except.error "e") (Except.error "e") (by decide)
  exact ⟨h.1, h.2.2.2.2.2.2⟩

/-- C4 counterexample: in `stNoValueCols` a dataset is selected, the chart
type is `line` and `time_column` is null, yet `refreshChart` returns with
the state unchanged and no chart error set (the empty `value_columns`
guard returns first), so the claim's unqualified second clause is false. -/
theorem c4_counterexample_no_error_when_value_columns_empty :
    stNoValueCols.selectedPath = some "n.csv" ∧
    stNoValueCols.chart.options.chart_type = ChartType.line ∧
    stNoValueCols.chart.options.time_column = none ∧
    refreshChartWith (Except.error "x") stNoValueCols =
      (stNoValueCols, []) ∧
    (refreshChartWith (Except.error "x") stNoValueCols).1.chart.error =
      none := by
  decide

/-- C4 (amended): if no dataset is selected or `value_columns` is empty,
`refreshChart` changes nothing and issues no Gateway request; and if in
addition to `chart_type` being line or bar with `time_column` null a
dataset IS selected and `value_columns` is nonempty, it sets the
chart-scoped error "Time column not selected." and issues no Gateway
request. -/
theorem c4_refresh_chart_guards (st : DashboardState)
    (res res2 : Except String ChartResult) :
    ((st.selectedPath = none ∨ st.chart.options.value_columns = []) →
      refreshChartWith res st = (st, [])) ∧
    (st.selectedPath ≠ none → st.chart.options.value_columns ≠ [] →
      (st.chart.options.chart_type = ChartType.line ∨
        st.chart.options.chart_type = ChartType.bar) →
      st.chart.options.time_column = none →
      refreshChartWith res2 st =
        ({ st with chart := { st.chart with
            isLoading := false,
            error := some "Time column not selected." } }, [])) := by
  constructor
  · intro h
    unfold refreshChartWith
    rcases h with h | h
    · rw [h]
    · cases hsel : st.selectedPath with
      | none => rfl
      | some p => simp [h]
  · intro h1 h2 h3 h4
    have hc : (st.chart.options.chart_type = ChartType.line ∨
        st.chart.options.chart_type = ChartType.bar) ∧
        st.chart.options.time_column = none := ⟨h3, h4⟩
    unfold refreshChartWith
    cases hsel : st.selectedPath with
    | none => exact absurd hsel h1
    | some p => simp [h2, hc]

/-- C4 witness: the first clause at a state with no selection, the second
at `stTimeNull` (selected, `value_columns = [v]`, line, null time). -/
theorem c4_refresh_chart_guards_witness :
    refreshChartWith (Except.error "x") initialState =
      (initialState, []) ∧
    refreshChartWith (Except.error "x") stTimeNull =
      ({ stTimeNull with chart := { stTimeNull.chart with
          isLoading := false,
          error := some "Time column not selected." } }, []) := by
  have h1 := c4_refresh_chart_guards initialState (Except.error "x")
    (Except.error "x")
  have h2 := c4_refresh_chart_guards stTimeNull (Except.error "x")
    (Except.error "x")
  exact ⟨h1.1 (Or.inl rfl),
    h2.2 (by decide) (by decide) (Or.inl (by decide)) (by decide)⟩

/-- C5: selecting the currently selected path is a no-op with zero Gateway
calls, and therefore a second `selectFile` with the same path right after
a first one performs no additional fetches. -/
theorem c5_select_file_idempotent (st : DashboardState) (p : String)
    (sr sr2 : Except String (List ColumnSchema))
    (pr pr2 : Except String PreviewResult)
    (mr mr2 : Except String SummaryResult)
    (cr cr2 : Except String ChartResult) :
    (st.selectedPath = some p → selectFile p sr pr mr cr st = (st, [])) ∧
    selectFile p sr2 pr2 mr2 cr2 (selectFile p sr pr mr cr st).1 =
      ((selectFile p sr pr mr cr st).1, []) := by
  refine ⟨fun h => selectFile_noop p sr pr mr cr st h, ?_⟩
  exact selectFile_noop p sr2 pr2 mr2 cr2 _
    (selectFile_selectedPath p sr pr mr cr st)

/-- C5 witness: re-selecting `x.csv` when it is already selected. -/
theorem c5_select_file_idempotent_witness :
    selectFile "x.csv" (Except.error "e") (Except.error "e")
      (Except.error "e") (Except.error "e") stSelectedX =
      (stSelectedX, []) := by
  have h := c5_select_file_idempotent stSelectedX "x.csv"
    (Except.error "e") (Except.error "e") (Except.error "e")
    (Except.error "e") (Except.error "e") (Except.error "e")
    (Except.error "e") (Except.error "e")
  exact h.1 rfl

/-- C6 counterexample: with `b.csv` selected and the catalog returning
`[a.csv, b.csv]`, a rerun of `init()` changes the selection to `a.csv`;
it does not leave the existing selection unchanged. -/
theorem c6_counterexample_init_replaces_selection :
    stSelectedB.selectedPath = some "b.csv" ∧
    (init (Except.ok [fileA, fileB]) (Except.error "e") (Except.error "e")
      (Except.error "e") (Except.error "e") stSelectedB).1.selectedPath =
      some "a.csv" ∧
    some "a.csv" ≠ stSelectedB.selectedPath := by
  decide

/-- C6 (amended): a successful `init()` with a nonempty dataset list always
selects the first dataset (in particular when nothing was selected); the
current selection survives a rerun of `init()` exactly when it already is
the first dataset's path, in which case `init` only rewrites the catalog
bookkeeping and issues only the list call; and a successful `init()` with
an empty list selects nothing. -/
theorem c6_init_selects_first (st : DashboardState) (fi : CsvFileInfo)
    (rest : List CsvFileInfo)
    (sr : Except String (List ColumnSchema))
    (pr : Except String PreviewResult) (mr : Except String SummaryResult)
    (cr : Except String ChartResult) :
    (init (Except.ok (fi :: rest)) sr pr mr cr st).1.selectedPath =
      some fi.path ∧
    (init (Except.ok (fi :: rest)) sr pr mr cr st).1.files = fi :: rest ∧
    (st.selectedPath = some fi.path →
      init (Except.ok (fi :: rest)) sr pr mr cr st =
        ({ st with files := fi :: rest, filesLoading := false,
                   filesError := none }, [GatewayCall.listFiles])) ∧
    (init (Except.ok []) sr pr mr cr st).1.selectedPath =
      st.selectedPath := by
  refine ⟨?_, ?_, ?_, rfl⟩
  · simp only [init]
    exact selectFile_selectedPath fi.path sr pr mr cr _
  · simp only [init]
    rw [selectFile_files]
  · intro h
    simp only [init]
    have hno := selectFile_noop fi.path sr pr mr cr
      { st with files := fi :: rest, filesLoading := false,
                filesError := none } h
    rw [hno]

/-- C6 witness: rerunning `init` while the first dataset `a.csv` is
already selected leaves the selection (and everything but the catalog
bookkeeping) unchanged. -/
theorem c6_init_selects_first_witness :
    (init (Except.ok [fileA, fileB]) (Except.error "e") (Except.error "e")
      (Except.error "e") (Except.error "e")
      { initialState with selectedPath := some "a.csv" }).1.selectedPath =
      some "a.csv" := by
  have h := c6_init_selects_first
    { initialState with selectedPath := some "a.csv" } fileA [fileB]
    (Except.error "e") (Except.error "e") (Except.error "e")
    (Except.error "e")
  exact h.1

/-- C7 counterexample: `setPage 7` from the initial state (an exposed
operation, so the result is reachable) leaves `totalRows = 0` with
`page = 7 ≠ 1`, because `setPage` stores its argument without clamping
and `refreshPreview` bails out with no dataset selected. -/
theorem c7_counterexample_page_out_of_bounds :
    Reachable (setPage 7 (Except.error "e") initialState).1 ∧
    (setPage 7 (Except.error "e") initialState).1.preview.totalRows = 0 ∧
    (setPage 7 (Except.error "e") initialState).1.preview.page = 7 ∧
    (setPage 7 (Except.error "e") initialState).1.preview.page ≠ 1 :=
  ⟨Reachable.opSetPage initialState 7 (Except.error "e") Reachable.start,
    by decide, by decide, by decide⟩

/-- C7 (amended): the store does not enforce the page-bounds invariant
itself — `setPage p` always stores `p` verbatim (even out of range);
`page = 1` is (re)established by `setPageSize`, `updateSort`,
`updateFilters` and by selecting a new dataset, and `refreshPreview`
never changes `page`.  The bounds invariant therefore holds only if every
`setPage` caller supplies an in-range page. -/
theorem c7_page_transitions (st : DashboardState) (p : Int) (n : Nat)
    (s : List SortSpec) (fs : List FilterSpec) (q : String)
    (r : Except String PreviewResult)
    (sr : Except String (List ColumnSchema))
    (pr : Except String PreviewResult) (mr : Except String SummaryResult)
    (cr : Except String ChartResult) :
    (setPage p r st).1.preview.page = p ∧
    (setPageSize n r st).1.preview.page = 1 ∧
    (updateSort s r st).1.preview.page = 1 ∧
    (updateFilters fs r st).1.preview.page = 1 ∧
    (refreshPreviewWith r st).1.preview.page = st.preview.page ∧
    (st.selectedPath ≠ some q →
      (selectFile q sr pr mr cr st).1.preview.page = 1) := by
  refine ⟨?_, ?_, ?_, ?_, refreshPreviewWith_page r st,
    fun h => selectFile_page_of_ne q sr pr mr cr st h⟩
  · unfold setPage
    rw [refreshPreviewWith_page]
  · unfold setPageSize
    rw [refreshPreviewWith_page]
  · unfold updateSort
    rw [refreshPreviewWith_page]
  · unfold updateFilters
    rw [refreshPreviewWith_page]

/-- C7 witness: `setPage 5` stores page 5, and selecting a new dataset
resets the page to 1. -/
theorem c7_page_transitions_witness :
    (setPage 5 (Except.error "e") initialState).1.preview.page = 5 ∧
    (selectFile "w.csv" (Except.error "e") (Except.error "e")
      (Except.error "e") (Except.error "e")
      initialState).1.preview.page = 1 := by
  have h := c7_page_transitions initialState 5 10 [] [] "w.csv"
    (Except.error "e") (Except.error "e") (Except.error "e")
    (Except.error "e") (Except.error "e")
  exact ⟨h.1, h.2.2.2.2.2 (by decide)⟩

/-- C8: switching the chart type to scatter clears `time_column` and
recomputes `value_columns` as the first 2 of the deduplicated list formed
by the already-selected numeric-capable columns (in order) padded with
the schema's numeric columns; the result has at most 2 entries, all
numeric-capable; and on the example schema where only `a`, `b` are
numeric, `[a, b, c]` becomes `[a, b]`. -/
theorem c8_scatter_switch (schema : List ColumnSchema)
    (opts : ChartOptions) (h : opts.chart_type ≠ ChartType.scatter) :
    (handleChartTypeChange ChartType.scatter schema opts).chart_type =
      ChartType.scatter ∧
    (handleChartTypeChange ChartType.scatter schema opts).time_column =
      none ∧
    (handleChartTypeChange ChartType.scatter schema opts).value_columns =
      (dedupFirst (opts.value_columns.filter
        (fun col => (numericColumnNames schema).contains col) ++
        numericColumnNames schema)).take 2 ∧
    (handleChartTypeChange ChartType.scatter schema
      opts).value_columns.length ≤ 2 ∧
    (∀ c, c ∈ (handleChartTypeChange ChartType.scatter schema
        opts).value_columns → c ∈ numericColumnNames schema) ∧
    (handleChartTypeChange ChartType.scatter schemaEx optsEx).value_columns
      = ["a", "b"] := by
  have hne : ¬ (ChartType.scatter = opts.chart_type) := fun e => h e.symm
  refine ⟨?_, ?_, ?_, ?_, ?_, by decide⟩
  · simp only [handleChartTypeChange, hne, ite_false, ite_true]
  · simp only [handleChartTypeChange, hne, ite_false, ite_true]
  · simp only [handleChartTypeChange, hne, ite_false, ite_true]
  · simp only [handleChartTypeChange, hne, ite_false, ite_true,
      List.length_take]
    exact min_le_left _ _
  · intro c hc
    simp only [handleChartTypeChange, hne, ite_false, ite_true] at hc
    have hc2 := mem_dedupFirst c _ (List.mem_of_mem_take hc)
    rcases List.mem_append.mp hc2 with hl | hr
    · have := (List.mem_filter.mp hl).2
      simpa using this
    · exact hr

/-- C8 witness: the scatter switch on the example schema and options. -/
theorem c8_scatter_switch_witness :
    (handleChartTypeChange ChartType.scatter schemaEx optsEx).value_columns
      = ["a", "b"] ∧
    (handleChartTypeChange ChartType.scatter schemaEx optsEx).time_column
      = none := by
  have h := c8_scatter_switch schemaEx optsEx (by decide)
  exact ⟨h.2.2.2.2.2, h.2.1⟩

/-- C9: `refreshSummary` with no dataset selected, or with an empty
schema, leaves the entire store state unchanged and issues no Gateway
call. -/
theorem c9_refresh_summary_noop (st : DashboardState)
    (res : Except String SummaryResult)
    (h : st.selectedPath = none ∨ st.schema = []) :
    refreshSummaryWith res st = (st, []) := by
  unfold refreshSummaryWith
  rcases h with h | h
  · rw [h]
  · cases hsel : st.selectedPath with
    | none => rfl
    | some p => simp [h]

/-- C9 witness: refreshing the summary from the initial state (nothing
selected) returns the state unchanged with no calls. -/
theorem c9_refresh_summary_noop_witness :
    refreshSummaryWith (Except.ok ⟨[]⟩) initialState =
      (initialState, []) :=
  c9_refresh_summary_noop initialState (Except.ok ⟨[]⟩) (Or.inl rfl)

/-- C10: whatever state `stMid` holds when an in-flight `refreshPreview`
settles — successfully or with an error — the completion write-back
restores the `page`, `pageSize`, `sort` and `filters` captured when the
request was issued, overwriting any change made to them while the request
was in flight. -/
theorem c10_preview_snapshot_writeback (st stMid st1 : DashboardState)
    (req : PreviewRequest) (snap : PreviewState)
    (res : Except String PreviewResult)
    (h : refreshPreviewStart st = some (st1, req, snap)) :
    (refreshPreviewComplete snap res stMid).preview.page =
      st.preview.page ∧
    (refreshPreviewComplete snap res stMid).preview.pageSize =
      st.preview.pageSize ∧
    (refreshPreviewComplete snap res stMid).preview.sort =
      st.preview.sort ∧
    (refreshPreviewComplete snap res stMid).preview.filters =
      st.preview.filters := by
  have hsnap : snap = st.preview := by
    unfold refreshPreviewStart at h
    cases hsel : st.selectedPath with
    | none =>
      rw [hsel] at h
      exact absurd h (by simp)
    | some p =>
      rw [hsel] at h
      simp only [Option.some.injEq, Prod.mk.injEq] at h
      exact h.2.2.symm
  subst hsnap
  cases res <;> exact ⟨rfl, rfl, rfl, rfl⟩

/-- C10 witness: a preview request issued from `stSel` and completing
(with an error) against the unrelated state `stSelectedX` still writes
back `stSel`'s issue-time parameters. -/
theorem c10_preview_snapshot_writeback_witness :
    (refreshPreviewComplete stSel.preview (Except.error "late")
      stSelectedX).preview.page = stSel.preview.page ∧
    (refreshPreviewComplete stSel.preview (Except.error "late")
      stSelectedX).preview.pageSize = stSel.preview.pageSize ∧
    (refreshPreviewComplete stSel.preview (Except.error "late")
      stSelectedX).preview.sort = stSel.preview.sort ∧
    (refreshPreviewComplete stSel.preview (Except.error "late")
      stSelectedX).preview.filters = stSel.preview.filters :=
  c10_preview_snapshot_writeback stSel stSelectedX _ _ stSel.preview
    (Except.error "late") rfl

end CsvViewer
